import Mathlib

/-!
Shallow embedding of `code/data_pipeline.py` (class `PipelineGenerator`):
a TensorFlow data-input pipeline that materializes records from a CSV
manifest in one of four modes, decoding, augmenting and assembling the
referenced images.

Images are embedded symbolically: each TensorFlow image operation used by
the pipeline becomes a constructor of the inductive type `Img`, so that an
augmented image is the term recording exactly which operations were applied
with which parameters.  A denotational pixel semantics `Img.eval` is
parameterized by an interpretation `Interp` of the external TensorFlow
primitives; the semantics of `tf.clip_by_value` is fixed (pointwise
clamping), since the clamping guarantee of the code must hold for every
behaviour of the external operations.
-/

set_option autoImplicit false

namespace CameraTrap

/-- `PipelineGenerator.MODE_ALL` class attribute. -/
def MODE_ALL : String := "mode_all"

/-- `PipelineGenerator.MODE_FLAT_ALL` class attribute. -/
def MODE_FLAT_ALL : String := "mode_flat_all"

/-- `PipelineGenerator.MODE_SINGLE` class attribute. -/
def MODE_SINGLE : String := "mode_single"

/-- `PipelineGenerator.MODE_SEQUENCE` class attribute. -/
def MODE_SEQUENCE : String := "mode_sequence"

/-- `self._modes`, the closed list of valid modes set in `__init__`. -/
def modes : List String := [ MODE_ALL, MODE_FLAT_ALL, MODE_SINGLE, MODE_SEQUENCE]

/-- The exceptions `__init__` can raise: `ValueError` for an invalid mode,
`IndexError` for an out-of-bounds `image_idx` in single mode. -/
inductive InitError where
  | valueError (msg : String)
  | indexError (msg : String)
deriving Repr, DecidableEq

/-- The state of a constructed `PipelineGenerator`: the `self._*` fields set
by `__init__` (Python integers are embedded as `Int`; `self._resize` is
`None` or a pair, embedded as `Option`; `self._size` starts as `None`). -/
structure PipelineGenerator where
  dataset_file : String
  images_dir : String
  sequence_image_count : Int
  label_name : String
  mode : String
  image_size : Int × Int
  image_idx : Int
  resize : Option (Int × Int)
  is_training : Bool
  shuffle_buffer_size : Int
  size : Option Int
deriving Repr, DecidableEq

/-- `PipelineGenerator.__init__`: stores the configuration, raises
`ValueError` if the mode is not in `self._modes`, raises `IndexError` if the
mode is single and `image_idx <= 0 or image_idx > sequence_image_count`, and
overwrites `self._image_size` with `self._resize` when a resize target is
given.  (The binding of `self._parse_data` is reflected by dispatching on
`mode` in the pipeline assembly below.) -/
def initPipeline (dataset_file images_dir : String) (sequence_image_count : Int)
    (label_name : String) (mode : String) (image_size : Int × Int)
    (image_idx : Int) (resize : Option (Int × Int)) (is_training : Bool)
    (shuffle_buffer_size : Int) : Except InitError PipelineGenerator :=
  if mode ∉ modes then
    Except.error (InitError.valueError "Invalid mode. Please select one from the list of modes.")
  else if mode = MODE_SINGLE ∧ (image_idx ≤ 0 ∨ image_idx > sequence_image_count) then
    Except.error (InitError.indexError "Image index is out of bounds.")
  else
    Except.ok
      { dataset_file := dataset_file
        images_dir := images_dir
        sequence_image_count := sequence_image_count
        label_name := label_name
        mode := mode
        image_size := (match resize with | some r => r | none => image_size)
        image_idx := image_idx
        resize := resize
        is_training := is_training
        shuffle_buffer_size := shuffle_buffer_size
        size := none }

/-- Symbolic images: one constructor per TensorFlow image operation used by
`_decode_img` and `_augment_img`, recording the operation parameters.
`decodeJpeg` carries the string whose bytes were decoded (the joined image
path read by `tf.io.read_file`). -/
inductive Img where
  | decodeJpeg (bytes : String)
  | convertDtype (x : Img)
  | resizeTo (sz : Int × Int) (x : Img)
  | flipLR (seed : Nat) (x : Img)
  | randomHue (maxDelta : ℚ) (seed : Nat) (x : Img)
  | randomSaturation (lo hi : ℚ) (seed : Nat) (x : Img)
  | randomBrightness (maxDelta : ℚ) (seed : Nat) (x : Img)
  | randomContrast (lo hi : ℚ) (seed : Nat) (x : Img)
  | cropAndResize (x : Img) (box : ℚ × ℚ × ℚ × ℚ) (cropSize : Int × Int)
  | squeeze (x : Img)
  | clipByValue (lo hi : ℚ) (x : Img)
deriving Repr, DecidableEq

/-- `np.arange(start, stop, step)` in exact rational arithmetic: the values
`start + k * step` for `k` below `⌈(stop - start) / step⌉`. -/
def arange (start stop step : ℚ) : List ℚ :=
  (List.range (⌈(stop - start) / step⌉).toNat).map (fun k => start + (k : ℚ) * step)

/-- Interface model of `np.random.randint(bound)`: from a raw draw `r` of
the global random source it produces a value in `[0, bound)`. -/
def randint (bound : Nat) (r : Nat) : Nat := r % bound

/-- `tf.strings.join([dir, rel])` (default empty separator). -/
def joinPath (dir rel : String) : String := dir ++ rel

/-- `range(1, n + 1)`: the slot numbers `1 .. n` iterated by the parse
functions (empty when `n < 1`). -/
def slotNumbers (n : Int) : List Nat :=
  (List.range n.toNat).map (fun k => k + 1)

/-- `PipelineGenerator._augment_img(img, seed)`: in training mode applies
the flip always, the color jitter when `seed < 500`, the zoom/crop when
`250 <= seed < 750`, and clips the result to `[0, 1]`; outside training mode
returns the input unchanged.  The nested helpers `flip`, `color` and `zoom`
of the source become `let`-bound functions. -/
def PipelineGenerator.augment_img (g : PipelineGenerator) (img : Img) (seed : Nat) : Img :=
  let flip := fun (x : Img) => Img.flipLR seed x
  let color := fun (x : Img) =>
    let x := Img.randomHue 0.08 seed x
    let x := Img.randomSaturation 0.6 1.6 seed x
    let x := Img.randomBrightness 0.05 seed x
    Img.randomContrast 0.7 1.3 seed x
  let zoom := fun (x : Img) =>
    let scales := arange 0.9 1.0 0.02
    let scale := scales.getD (seed % scales.length) 0
    let x1 := 0.5 - (0.5 * scale)
    let x2 := 0.5 + (0.5 * scale)
    let x := Img.cropAndResize x (x1, x1, x2, x2) g.image_size
    Img.squeeze x
  if !g.is_training then img
  else
    let img := flip img
    let img := if seed < 500 then color img else img
    let img := if 250 ≤ seed ∧ seed < 750 then zoom img else img
    Img.clipByValue 0 1 img

/-- `PipelineGenerator._decode_img(img)`: decode the JPEG bytes to a 3-channel
tensor, convert to floats in `[0, 1]`, and resize exactly when a resize
target is configured. -/
def PipelineGenerator.decode_img (g : PipelineGenerator) (bytes : String) : Img :=
  let img := Img.decodeJpeg bytes
  let img := Img.convertDtype img
  match g.resize with
  | some r => Img.resizeTo r img
  | none => img

/-- `PipelineGenerator._parse_data_all(metadata, label)`: draws one seed,
reads, decodes and augments every slot `image1 .. imageN`, and returns the
dictionary of named images with the label.  The second component collects
the paths passed to `tf.io.read_file` (the I/O trace of the call). -/
def PipelineGenerator.parse_data_all {L : Type} (g : PipelineGenerator)
    (metadata : String → String) (label : L) (r : Nat) :
    (List (String × Img) × L) × List String :=
  let seed := randint 1000 r
  let items := (slotNumbers g.sequence_image_count).map (fun k =>
    let img_name := "image" ++ toString k
    let path := joinPath g.images_dir (metadata img_name)
    ((img_name, g.augment_img (g.decode_img path) seed), path))
  ((items.map Prod.fst, label), items.map Prod.snd)

/-- `PipelineGenerator._parse_data_single(metadata, label)`: reads and
decodes only the slot `image{image_idx}`, draws the seed, augments, and
returns the single image with the label, together with the I/O trace. -/
def PipelineGenerator.parse_data_single {L : Type} (g : PipelineGenerator)
    (metadata : String → String) (label : L) (r : Nat) :
    (Img × L) × List String :=
  let path := joinPath g.images_dir (metadata ("image" ++ toString g.image_idx))
  let img := g.decode_img path
  let seed := randint 1000 r
  ((g.augment_img img seed, label), [path])

/-- `PipelineGenerator._parse_data_flat(metadata, label)`: draws one seed,
reads, decodes and augments every slot, and returns the list of
(image, label) pairs that `tf.data.Dataset.from_tensor_slices` slices into
independent stream elements, together with the I/O trace. -/
def PipelineGenerator.parse_data_flat {L : Type} (g : PipelineGenerator)
    (metadata : String → String) (label : L) (r : Nat) :
    List (Img × L) × List String :=
  let seed := randint 1000 r
  let items := (slotNumbers g.sequence_image_count).map (fun k =>
    let path := joinPath g.images_dir (metadata ("image" ++ toString k))
    ((g.augment_img (g.decode_img path) seed, label), path))
  (items.map Prod.fst, items.map Prod.snd)

/-- `PipelineGenerator._parse_data_sequence(metadata, label)`: draws one
seed, reads, decodes and augments every slot, and returns the stacked list
of images (slot order `1 .. N`) with the label, together with the I/O
trace. -/
def PipelineGenerator.parse_data_sequence {L : Type} (g : PipelineGenerator)
    (metadata : String → String) (label : L) (r : Nat) :
    (List Img × L) × List String :=
  let seed := randint 1000 r
  let items := (slotNumbers g.sequence_image_count).map (fun k =>
    let path := joinPath g.images_dir (metadata ("image" ++ toString k))
    (g.augment_img (g.decode_img path) seed, path))
  ((items.map Prod.fst, label), items.map Prod.snd)

/-- The diagnostic printed by `get_size` when the size is not yet set. -/
def sizeMsg : String :=
  "Size cannot be determined before the get_pipeline function call. Returning None."

/-- `PipelineGenerator.get_size()`: returns `self._size` (the `None`
sentinel before assembly), emitting the diagnostic message when it is not
yet set; it never raises. -/
def PipelineGenerator.get_size (g : PipelineGenerator) : Option Int × List String :=
  match g.size with
  | none => (none, [sizeMsg])
  | some s => (some s, [])

/-- One manifest row as consumed by the parse functions after
`get_pipeline` splits the CSV: the image-column metadata and the label. -/
structure Row (L : Type) where
  metadata : String → String
  label : L

/-- The size computed by `get_pipeline`: `len(data_csv)`, multiplied by
`sequence_image_count` in flat mode. -/
def PipelineGenerator.assembled_size {L : Type} (g : PipelineGenerator)
    (rows : List (Row L)) : Int :=
  if g.mode = MODE_FLAT_ALL then (rows.length : Int) * g.sequence_image_count
  else (rows.length : Int)

/-- The state mutation performed by `get_pipeline`: `self._size` is set to
the assembled size before the dataset is built. -/
def PipelineGenerator.get_pipeline_state {L : Type} (g : PipelineGenerator)
    (rows : List (Row L)) : PipelineGenerator :=
  { g with size := some (g.assembled_size rows) }

/-- The stream built by `get_pipeline` in mode `MODE_ALL`: a 1:1 `map` of
`_parse_data_all` over the manifest rows; row `i` consumes the raw random
draw `rng i` for its seed. -/
def PipelineGenerator.pipeline_all {L : Type} (g : PipelineGenerator)
    (rows : List (Row L)) (rng : Nat → Nat) : List (List (String × Img) × L) :=
  rows.enum.map (fun p => (g.parse_data_all p.2.metadata p.2.label (rng p.1)).1)

/-- The stream built by `get_pipeline` in mode `MODE_SINGLE`: a 1:1 `map`
of `_parse_data_single` over the manifest rows. -/
def PipelineGenerator.pipeline_single {L : Type} (g : PipelineGenerator)
    (rows : List (Row L)) (rng : Nat → Nat) : List (Img × L) :=
  rows.enum.map (fun p => (g.parse_data_single p.2.metadata p.2.label (rng p.1)).1)

/-- The I/O trace of a full single-mode pass: the paths read by
`_parse_data_single` across all manifest rows. -/
def PipelineGenerator.pipeline_single_reads {L : Type} (g : PipelineGenerator)
    (rows : List (Row L)) (rng : Nat → Nat) : List String :=
  (rows.enum.map (fun p => (g.parse_data_single p.2.metadata p.2.label (rng p.1)).2)).flatten

/-- The stream built by `get_pipeline` in mode `MODE_FLAT_ALL`: a
`flat_map` of `_parse_data_flat` over the manifest rows, so each row
expands into its list of (image, label) elements. -/
def PipelineGenerator.pipeline_flat {L : Type} (g : PipelineGenerator)
    (rows : List (Row L)) (rng : Nat → Nat) : List (Img × L) :=
  (rows.enum.map (fun p => (g.parse_data_flat p.2.metadata p.2.label (rng p.1)).1)).flatten

/-- The stream built by `get_pipeline` in mode `MODE_SEQUENCE`: a 1:1 `map`
of `_parse_data_sequence` over the manifest rows. -/
def PipelineGenerator.pipeline_sequence {L : Type} (g : PipelineGenerator)
    (rows : List (Row L)) (rng : Nat → Nat) : List (List Img × L) :=
  rows.enum.map (fun p => (g.parse_data_sequence p.2.metadata p.2.label (rng p.1)).1)

/-- The seed parameters of all seeded random operations occurring in a
symbolic image (outermost operation first). -/
def Img.seedsIn : Img → List Nat
  | Img.decodeJpeg _ => []
  | Img.convertDtype x => x.seedsIn
  | Img.resizeTo _ x => x.seedsIn
  | Img.flipLR s x => s :: x.seedsIn
  | Img.randomHue _ s x => s :: x.seedsIn
  | Img.randomSaturation _ _ s x => s :: x.seedsIn
  | Img.randomBrightness _ s x => s :: x.seedsIn
  | Img.randomContrast _ _ s x => s :: x.seedsIn
  | Img.cropAndResize x _ _ => x.seedsIn
  | Img.squeeze x => x.seedsIn
  | Img.clipByValue _ _ x => x.seedsIn

/-- The number of `random_flip_left_right` applications in a symbolic image. -/
def Img.flipCount : Img → Nat
  | Img.decodeJpeg _ => 0
  | Img.convertDtype x => x.flipCount
  | Img.resizeTo _ x => x.flipCount
  | Img.flipLR _ x => x.flipCount + 1
  | Img.randomHue _ _ x => x.flipCount
  | Img.randomSaturation _ _ _ x => x.flipCount
  | Img.randomBrightness _ _ x => x.flipCount
  | Img.randomContrast _ _ _ x => x.flipCount
  | Img.cropAndResize x _ _ => x.flipCount
  | Img.squeeze x => x.flipCount
  | Img.clipByValue _ _ x => x.flipCount

/-- One color-jitter operation together with its parameters. -/
inductive JitterOp where
  | hue (maxDelta : ℚ)
  | saturation (lo hi : ℚ)
  | brightness (maxDelta : ℚ)
  | contrast (lo hi : ℚ)
deriving Repr, DecidableEq

/-- The color-jitter operations occurring in a symbolic image, outermost
(latest applied) first. -/
def Img.jitterNodes : Img → List JitterOp
  | Img.decodeJpeg _ => []
  | Img.convertDtype x => x.jitterNodes
  | Img.resizeTo _ x => x.jitterNodes
  | Img.flipLR _ x => x.jitterNodes
  | Img.randomHue d _ x => JitterOp.hue d :: x.jitterNodes
  | Img.randomSaturation lo hi _ x => JitterOp.saturation lo hi :: x.jitterNodes
  | Img.randomBrightness d _ x => JitterOp.brightness d :: x.jitterNodes
  | Img.randomContrast lo hi _ x => JitterOp.contrast lo hi :: x.jitterNodes
  | Img.cropAndResize x _ _ => x.jitterNodes
  | Img.squeeze x => x.jitterNodes
  | Img.clipByValue _ _ x => x.jitterNodes

/-- The `crop_and_resize` applications occurring in a symbolic image
(outermost first), each with its crop box and crop size. -/
def Img.cropNodes : Img → List ((ℚ × ℚ × ℚ × ℚ) × (Int × Int))
  | Img.decodeJpeg _ => []
  | Img.convertDtype x => x.cropNodes
  | Img.resizeTo _ x => x.cropNodes
  | Img.flipLR _ x => x.cropNodes
  | Img.randomHue _ _ x => x.cropNodes
  | Img.randomSaturation _ _ _ x => x.cropNodes
  | Img.randomBrightness _ _ x => x.cropNodes
  | Img.randomContrast _ _ _ x => x.cropNodes
  | Img.cropAndResize x box cs => (box, cs) :: x.cropNodes
  | Img.squeeze x => x.cropNodes
  | Img.clipByValue _ _ x => x.cropNodes

/-- The spatial size of a symbolic image, given the native decoded size of
each JPEG: resizing and cropping set the size, pointwise operations keep
it. -/
def Img.shape (native : String → Int × Int) : Img → Int × Int
  | Img.decodeJpeg b => native b
  | Img.convertDtype x => x.shape native
  | Img.resizeTo sz _ => sz
  | Img.flipLR _ x => x.shape native
  | Img.randomHue _ _ x => x.shape native
  | Img.randomSaturation _ _ _ x => x.shape native
  | Img.randomBrightness _ _ x => x.shape native
  | Img.randomContrast _ _ _ x => x.shape native
  | Img.cropAndResize _ _ cs => cs
  | Img.squeeze x => x.shape native
  | Img.clipByValue _ _ x => x.shape native

/-- An interpretation of the external TensorFlow primitives over pixel maps
(`Nat → ℚ`, pixels indexed abstractly).  Every operation except
`clip_by_value` is interpreted freely; the contracts the pipeline relies on
are stated separately. -/
structure Interp where
  decodeI : String → Nat → ℚ
  convertI : (Nat → ℚ) → Nat → ℚ
  resizeI : (Int × Int) → (Nat → ℚ) → Nat → ℚ
  flipI : Nat → (Nat → ℚ) → Nat → ℚ
  hueI : ℚ → Nat → (Nat → ℚ) → Nat → ℚ
  saturationI : ℚ → ℚ → Nat → (Nat → ℚ) → Nat → ℚ
  brightnessI : ℚ → Nat → (Nat → ℚ) → Nat → ℚ
  contrastI : ℚ → ℚ → Nat → (Nat → ℚ) → Nat → ℚ
  cropI : (ℚ × ℚ × ℚ × ℚ) → (Int × Int) → (Nat → ℚ) → Nat → ℚ
  squeezeI : (Nat → ℚ) → Nat → ℚ

/-- Denotational pixel semantics of a symbolic image under an
interpretation of the external primitives.  `tf.clip_by_value` has its
fixed semantics: pointwise clamping between the bounds. -/
def Img.eval (I : Interp) : Img → Nat → ℚ
  | Img.decodeJpeg b => I.decodeI b
  | Img.convertDtype x => I.convertI (x.eval I)
  | Img.resizeTo sz x => I.resizeI sz (x.eval I)
  | Img.flipLR s x => I.flipI s (x.eval I)
  | Img.randomHue d s x => I.hueI d s (x.eval I)
  | Img.randomSaturation lo hi s x => I.saturationI lo hi s (x.eval I)
  | Img.randomBrightness d s x => I.brightnessI d s (x.eval I)
  | Img.randomContrast lo hi s x => I.contrastI lo hi s (x.eval I)
  | Img.cropAndResize x box cs => I.cropI box cs (x.eval I)
  | Img.squeeze x => I.squeezeI (x.eval I)
  | Img.clipByValue lo hi x => fun p => max lo (min hi (x.eval I p))

/-- Contract of `decode_jpeg` followed by `convert_image_dtype`: the decoded
floating-point image has all values in `[0, 1]`. -/
def Interp.DecodeInUnit (I : Interp) : Prop :=
  ∀ b p, 0 ≤ I.convertI (I.decodeI b) p ∧ I.convertI (I.decodeI b) p ≤ 1

/-- Contract of `tf.image.resize` (bilinear resampling): values stay inside
`[0, 1]` when the input values are inside `[0, 1]`. -/
def Interp.ResizePreservesUnit (I : Interp) : Prop :=
  ∀ sz f, (∀ p, 0 ≤ f p ∧ f p ≤ 1) → ∀ p, 0 ≤ I.resizeI sz f p ∧ I.resizeI sz f p ≤ 1

/-- A concrete interpretation: decoding yields the constant `1/2` image and
every other primitive is the identity on pixel maps.  It satisfies both
interface contracts. -/
def constInterp : Interp where
  decodeI := fun _ _ => 1/2
  convertI := fun f => f
  resizeI := fun _ f => f
  flipI := fun _ f => f
  hueI := fun _ _ f => f
  saturationI := fun _ _ _ f => f
  brightnessI := fun _ _ f => f
  contrastI := fun _ _ _ f => f
  cropI := fun _ _ f => f
  squeezeI := fun f => f

/-! ## Helper lemmas -/

/-- The crop-scale list `np.arange(0.9, 1.0, 0.02)` evaluates to the five
rationals `0.9, 0.92, 0.94, 0.96, 0.98`. -/
theorem scales_eq : arange 0.9 1.0 0.02 = [0.9, 0.92, 0.94, 0.96, 0.98] := by
  have h : (⌈((1.0 : ℚ) - 0.9) / 0.02⌉ : Int) = 5 := by norm_num
  simp [arange, h, List.range_succ]
  norm_num

/-- Every seeded operation added by `_augment_img` uses the seed it was
called with. -/
theorem seedsIn_augment (g : PipelineGenerator) (x : Img) (seed : Nat) :
    ∀ s ∈ (g.augment_img x seed).seedsIn, s = seed ∨ s ∈ x.seedsIn := by
  intro s hs
  simp only [PipelineGenerator.augment_img] at hs
  split_ifs at hs <;> simp_all [Img.seedsIn]

/-- `_decode_img` applies no seeded operation. -/
theorem seedsIn_decode (g : PipelineGenerator) (b : String) :
    (g.decode_img b).seedsIn = [] := by
  simp only [PipelineGenerator.decode_img]
  cases g.resize <;> simp [Img.seedsIn]

/-- Length of a flattened map whose pieces all have the same length. -/
theorem length_flatten_of_const {α β : Type} (l : List α) (f : α → List β) (n : Nat)
    (h : ∀ a ∈ l, (f a).length = n) : ((l.map f).flatten).length = l.length * n := by
  induction l with
  | nil => simp
  | cons a t ih =>
    simp only [List.map_cons, List.flatten_cons, List.length_append, List.length_cons]
    rw [h a (List.mem_cons_self a t), ih (fun b hb => h b (List.mem_cons_of_mem a hb))]
    ring

/-- Under the decode and resize contracts, a decoded-then-augmented image
evaluates inside `[0, 1]` at every pixel, for every interpretation of the
external primitives. -/
theorem eval_augment_decode_unit (g : PipelineGenerator) (b : String) (s : Nat)
    (I : Interp) (hd : I.DecodeInUnit) (hr : I.ResizePreservesUnit) (p : Nat) :
    0 ≤ (g.augment_img (g.decode_img b) s).eval I p ∧
      (g.augment_img (g.decode_img b) s).eval I p ≤ 1 := by
  have hdec : ∀ q, 0 ≤ (g.decode_img b).eval I q ∧ (g.decode_img b).eval I q ≤ 1 := by
    intro q
    simp only [PipelineGenerator.decode_img]
    cases hres : g.resize with
    | none => simpa [Img.eval] using hd b q
    | some sz =>
      simp only [Img.eval]
      exact hr sz _ (fun q' => hd b q') q
  by_cases ht : g.is_training
  · simp only [PipelineGenerator.augment_img, ht]
    split_ifs <;> simp_all [Img.eval, le_max_iff, max_le_iff, min_le_iff]
  · simp only [Bool.not_eq_true] at ht
    simpa [PipelineGenerator.augment_img, ht] using hdec p

/-- When a resize target is configured (and, as `__init__` guarantees,
`image_size` has been overwritten with it), a decoded-then-augmented image
has exactly that spatial size. -/
theorem shape_augment_decode (g : PipelineGenerator) (b : String) (s : Nat)
    (native : String → Int × Int) (sz : Int × Int) (hres : g.resize = some sz)
    (him : g.image_size = sz) :
    Img.shape native (g.augment_img (g.decode_img b) s) = sz := by
  have hdec : Img.shape native (g.decode_img b) = sz := by
    simp [PipelineGenerator.decode_img, hres, Img.shape]
  simp only [PipelineGenerator.augment_img]
  split_ifs <;> simp_all [Img.shape]

/-! ## Claims -/

/-- C1: for every image `x` and seed `s`, augmentation with the training
flag off returns `x` unchanged; with the training flag on it applies the
horizontal flip exactly once, the color jitter (hue ±0.08, saturation
×0.6–1.6, brightness ±0.05, contrast ×0.7–1.3) exactly when `s < 500`, the
zoom/crop exactly when `250 ≤ s < 750`, and the result is clamped
elementwise to `[0, 1]` (its value at every pixel lies in `[0, 1]` under
every interpretation of the external primitives).  This holds for all
seeds, in particular on `[0, 1000)`. -/
theorem augment_training_gate_and_clamp (g : PipelineGenerator) (x : Img) (s : Nat) :
    (({g with is_training := false} : PipelineGenerator).augment_img x s = x) ∧
    ((({g with is_training := true} : PipelineGenerator).augment_img x s).flipCount
        = x.flipCount + 1) ∧
    ((({g with is_training := true} : PipelineGenerator).augment_img x s).jitterNodes =
      (if s < 500 then
        [ JitterOp.contrast 0.7 1.3, JitterOp.brightness 0.05,
          JitterOp.saturation 0.6 1.6, JitterOp.hue 0.08] else []) ++ x.jitterNodes) ∧
    ((({g with is_training := true} : PipelineGenerator).augment_img x s).cropNodes.length =
      (if 250 ≤ s ∧ s < 750 then 1 else 0) + x.cropNodes.length) ∧
    (∀ (I : Interp) (p : Nat),
      0 ≤ (({g with is_training := true} : PipelineGenerator).augment_img x s).eval I p ∧
        (({g with is_training := true} : PipelineGenerator).augment_img x s).eval I p ≤ 1) := by
  refine ⟨by simp [PipelineGenerator.augment_img], ?_, ?_, ?_, ?_⟩
  · simp only [PipelineGenerator.augment_img]
    split_ifs <;> simp_all [Img.flipCount]
  · simp only [PipelineGenerator.augment_img]
    split_ifs <;> simp_all [Img.jitterNodes]
  · simp only [PipelineGenerator.augment_img]
    split_ifs <;> simp_all [Img.cropNodes] <;> omega
  · intro I p
    simp only [PipelineGenerator.augment_img]
    split_ifs <;> simp_all [Img.eval, le_max_iff, max_le_iff, min_le_iff]

/-- C2: in training mode the zoom/crop step (taken exactly when
`250 ≤ s < 750`) selects one of the 5 discrete crop scales
`np.arange(0.9, 1.0, 0.02)`, all lying in `[0.90, 1.00)`, indexed by
`s mod 5`; the crop box is the centered square with corners
`0.5 ± 0.5·scale` on both axes, and the crop is resampled to the configured
image size. -/
theorem zoom_crop_scale_box (g : PipelineGenerator) (x : Img) (s : Nat) :
    (arange 0.9 1.0 0.02).length = 5 ∧
    (∀ sc ∈ arange 0.9 1.0 0.02, 0.9 ≤ sc ∧ sc < 1) ∧
    (({g with is_training := true} : PipelineGenerator).augment_img x s).cropNodes =
      (if 250 ≤ s ∧ s < 750 then
        [ ((0.5 - 0.5 * (arange 0.9 1.0 0.02).getD (s % 5) 0,
            0.5 - 0.5 * (arange 0.9 1.0 0.02).getD (s % 5) 0,
            0.5 + 0.5 * (arange 0.9 1.0 0.02).getD (s % 5) 0,
            0.5 + 0.5 * (arange 0.9 1.0 0.02).getD (s % 5) 0), g.image_size)]
       else []) ++ x.cropNodes := by
  refine ⟨by simp [scales_eq], by simp [scales_eq]; norm_num, ?_⟩
  simp only [PipelineGenerator.augment_img, scales_eq]
  split_ifs <;> simp_all [Img.cropNodes]

/-- C3: each record-materializing parse function (modes ALL, FLAT_ALL and
SEQUENCE) consumes a single raw random draw `r`, the derived augmentation
seed lies in `[0, 1000)`, and every seeded operation applied to any of the
record's images uses that one shared seed. -/
theorem record_seed_shared {L : Type} (g : PipelineGenerator)
    (md : String → String) (lbl : L) (r : Nat) :
    randint 1000 r < 1000 ∧
    (∀ e ∈ (g.parse_data_all md lbl r).1.1, ∀ s ∈ e.2.seedsIn, s = randint 1000 r) ∧
    (∀ e ∈ (g.parse_data_flat md lbl r).1, ∀ s ∈ e.1.seedsIn, s = randint 1000 r) ∧
    (∀ img ∈ (g.parse_data_sequence md lbl r).1.1, ∀ s ∈ img.seedsIn,
      s = randint 1000 r) := by
  refine ⟨Nat.mod_lt _ (by norm_num), ?_, ?_, ?_⟩
  · intro e he s hs
    simp only [PipelineGenerator.parse_data_all, List.map_map, List.mem_map,
      Function.comp] at he
    obtain ⟨k, hk, rfl⟩ := he
    rcases seedsIn_augment g (g.decode_img _) (randint 1000 r) s hs with h | h
    · exact h
    · rw [seedsIn_decode] at h
      simp at h
  · intro e he s hs
    simp only [PipelineGenerator.parse_data_flat, List.map_map, List.mem_map,
      Function.comp] at he
    obtain ⟨k, hk, rfl⟩ := he
    rcases seedsIn_augment g (g.decode_img _) (randint 1000 r) s hs with h | h
    · exact h
    · rw [seedsIn_decode] at h
      simp at h
  · intro img him s hs
    simp only [PipelineGenerator.parse_data_sequence, List.map_map, List.mem_map,
      Function.comp] at him
    obtain ⟨k, hk, rfl⟩ := him
    rcases seedsIn_augment g (g.decode_img _) (randint 1000 r) s hs with h | h
    · exact h
    · rw [seedsIn_decode] at h
      simp at h

/-- A neutral example generator configuration (mode ALL, `N = 3`, training
on, no resize), used to instantiate theorems at concrete inputs. -/
def gEx : PipelineGenerator :=
  { dataset_file := "d", images_dir := "i", sequence_image_count := 3,
    label_name := "has_animal", mode := MODE_ALL, image_size := (224, 224),
    image_idx := 1, resize := none, is_training := true,
    shuffle_buffer_size := 10000, size := none }

/-- Witness for C2: the crop parameters at the concrete seed 300 on a
concrete decoded image. -/
theorem zoom_crop_scale_box_witness :
    (arange 0.9 1.0 0.02).length = 5 ∧
    (∀ sc ∈ arange 0.9 1.0 0.02, 0.9 ≤ sc ∧ sc < 1) ∧
    (({gEx with is_training := true} : PipelineGenerator).augment_img
        (Img.decodeJpeg "b") 300).cropNodes =
      (if 250 ≤ 300 ∧ 300 < 750 then
        [ ((0.5 - 0.5 * (arange 0.9 1.0 0.02).getD (300 % 5) 0,
            0.5 - 0.5 * (arange 0.9 1.0 0.02).getD (300 % 5) 0,
            0.5 + 0.5 * (arange 0.9 1.0 0.02).getD (300 % 5) 0,
            0.5 + 0.5 * (arange 0.9 1.0 0.02).getD (300 % 5) 0), gEx.image_size)]
       else []) ++ (Img.decodeJpeg "b").cropNodes :=
  zoom_crop_scale_box gEx (Img.decodeJpeg "b") 300

/-- Witness for C3: the shared-seed property at a concrete generator,
metadata function and raw draw. -/
theorem record_seed_shared_witness :
    randint 1000 1234 < 1000 ∧
    (∀ e ∈ (gEx.parse_data_all (fun _ => "a.jpg") (0 : Int) 1234).1.1,
      ∀ s ∈ e.2.seedsIn, s = randint 1000 1234) ∧
    (∀ e ∈ (gEx.parse_data_flat (fun _ => "a.jpg") (0 : Int) 1234).1,
      ∀ s ∈ e.1.seedsIn, s = randint 1000 1234) ∧
    (∀ img ∈ (gEx.parse_data_sequence (fun _ => "a.jpg") (0 : Int) 1234).1.1,
      ∀ s ∈ img.seedsIn, s = randint 1000 1234) :=
  record_seed_shared gEx (fun _ => "a.jpg") (0 : Int) 1234

/-- A concrete one-row manifest. -/
def rows1Ex : List (Row Int) := [ Row.mk (fun _ => "p.jpg") 1]

/-- C4: construction fails with the `ValueError` (ConfigError-kind) for
every mode outside the closed set, fails with `IndexError` for mode SINGLE
whenever `image_idx ∉ [1, N]`, and succeeds for every valid
mode/N/image_idx combination. -/
theorem init_mode_and_idx_validation (df imd : String) (N : Int) (ln mode : String)
    (sz : Int × Int) (idx : Int) (rs : Option (Int × Int)) (tr : Bool) (sbs : Int) :
    (mode ∉ modes →
      ∃ m, initPipeline df imd N ln mode sz idx rs tr sbs
        = Except.error (InitError.valueError m)) ∧
    (mode = MODE_SINGLE → (idx ≤ 0 ∨ idx > N) →
      ∃ m, initPipeline df imd N ln mode sz idx rs tr sbs
        = Except.error (InitError.indexError m)) ∧
    (mode ∈ modes → (mode = MODE_SINGLE → 1 ≤ idx ∧ idx ≤ N) →
      (initPipeline df imd N ln mode sz idx rs tr sbs).isOk = true) := by
  refine ⟨?_, ?_, ?_⟩
  · intro hm
    simp [initPipeline, hm]
  · intro hm hidx
    subst hm
    have hmem : MODE_SINGLE ∈ modes := by simp [modes]
    simp [initPipeline, hmem, hidx]
  · intro hm hv
    have hcond : ¬(mode = MODE_SINGLE ∧ (idx ≤ 0 ∨ idx > N)) := by
      intro hc
      obtain ⟨h1, h2⟩ := hv hc.1
      rcases hc.2 with h | h <;> omega
    simp [initPipeline, hm, hcond, Except.isOk, Except.toBool]

/-- Witness for C4: a bogus mode is rejected with `ValueError`, single mode
with `image_idx = 0` and `N = 3` is rejected with `IndexError`, and a valid
configuration constructs successfully. -/
theorem init_mode_and_idx_validation_witness :
    (∃ m, initPipeline "d" "i" 3 "has_animal" "mode_bogus" (224, 224) 1 none true 10000
        = Except.error (InitError.valueError m)) ∧
    (∃ m, initPipeline "d" "i" 3 "has_animal" MODE_SINGLE (224, 224) 0 none true 10000
        = Except.error (InitError.indexError m)) ∧
    (initPipeline "d" "i" 3 "has_animal" MODE_ALL (224, 224) 1 none true 10000).isOk
        = true :=
  ⟨(init_mode_and_idx_validation "d" "i" 3 "has_animal" "mode_bogus" (224, 224) 1 none
      true 10000).1 (by decide),
   (init_mode_and_idx_validation "d" "i" 3 "has_animal" MODE_SINGLE (224, 224) 0 none
      true 10000).2.1 rfl (Or.inl (by norm_num)),
   (init_mode_and_idx_validation "d" "i" 3 "has_animal" MODE_ALL (224, 224) 1 none
      true 10000).2.2 (by decide) (fun h => absurd h (by decide))⟩

/-- C5 counterexample: a configuration violating the data-model invariants
(`N = 0 < 1` and a negative image-size component) is accepted by the
constructor, refuting the claim that every such configuration is rejected
at construction time. -/
theorem init_degenerate_accepted_counterexample :
    ((0 : Int) < 1 ∧ (-5 : Int) ≤ 0) ∧
    (initPipeline "d" "i" 0 "has_animal" MODE_ALL (-5, 224) 1 none true 10000).isOk
      = true := by
  exact ⟨⟨by decide, by decide⟩, rfl⟩

/-- C5 amended: construction validates only the mode (and, for mode SINGLE,
the `image_idx` bounds); it succeeds for every `N` (including `N < 1`) and
every `image_size`/`resize` pair (including non-positive components), so
the `N ≥ 1` and positive-size invariants are not enforced at construction
time. -/
theorem init_checks_only_mode_and_idx (df imd : String) (N : Int) (ln mode : String)
    (sz : Int × Int) (idx : Int) (rs : Option (Int × Int)) (tr : Bool) (sbs : Int)
    (hm : mode ∈ [ MODE_ALL, MODE_FLAT_ALL, MODE_SEQUENCE]) :
    (initPipeline df imd N ln mode sz idx rs tr sbs).isOk = true := by
  have hm3 : mode = MODE_ALL ∨ mode = MODE_FLAT_ALL ∨ mode = MODE_SEQUENCE := by
    simpa using hm
  have hmem : mode ∈ modes := by
    rcases hm3 with h | h | h <;> simp [modes, h]
  have hns : ¬(mode = MODE_SINGLE ∧ (idx ≤ 0 ∨ idx > N)) := by
    rintro ⟨hs, -⟩
    rcases hm3 with h | h | h <;> rw [h] at hs <;> exact absurd hs (by decide)
  simp [initPipeline, hmem, hns, Except.isOk, Except.toBool]

/-- Witness for the amended C5: a degenerate configuration (`N = 0`,
negative sizes, negative buffer) constructs successfully in sequence
mode. -/
theorem init_checks_only_mode_and_idx_witness :
    (MODE_SEQUENCE ∈ [ MODE_ALL, MODE_FLAT_ALL, MODE_SEQUENCE]) ∧
    (initPipeline "d" "i" 0 "lbl" MODE_SEQUENCE (-5, -7) 99 (some (0, 0)) false
      (-3)).isOk = true :=
  ⟨by decide,
   init_checks_only_mode_and_idx "d" "i" 0 "lbl" MODE_SEQUENCE (-5, -7) 99
     (some (0, 0)) false (-3) (by decide)⟩

/-- C6: for a freshly constructed generator the size accessor returns the
`None` sentinel with the diagnostic message (it is a total function, so it
never raises); after `get_pipeline` has set the size it returns exactly the
manifest row count, multiplied by `N` exactly in flat mode. -/
theorem size_accessor_sentinel_then_count (df imd : String) (N : Int) (ln mode : String)
    (sz : Int × Int) (idx : Int) (rs : Option (Int × Int)) (tr : Bool) (sbs : Int)
    (g : PipelineGenerator)
    (h : initPipeline df imd N ln mode sz idx rs tr sbs = Except.ok g)
    {L : Type} (rows : List (Row L)) :
    g.get_size = (none, [ sizeMsg]) ∧
    (g.get_pipeline_state rows).get_size =
      (some (if mode = MODE_FLAT_ALL then (rows.length : Int) * N
             else (rows.length : Int)), []) := by
  simp only [initPipeline] at h
  split_ifs at h
  cases h
  constructor
  · rfl
  · simp [PipelineGenerator.get_pipeline_state, PipelineGenerator.get_size,
      PipelineGenerator.assembled_size]

/-- The generator built by the C6 witness configuration. -/
def gFlatEx : PipelineGenerator :=
  { dataset_file := "d", images_dir := "i", sequence_image_count := 3,
    label_name := "has_animal", mode := MODE_FLAT_ALL, image_size := (224, 224),
    image_idx := 1, resize := none, is_training := true,
    shuffle_buffer_size := 10000, size := none }

/-- A concrete two-row manifest. -/
def rowsEx : List (Row Int) :=
  [ Row.mk (fun _ => "p.jpg") 0, Row.mk (fun _ => "q.jpg") 1]

/-- Witness for C6: in flat mode with `N = 3` and two manifest rows, the
accessor returns the sentinel before assembly and `2 × 3 = 6` after. -/
theorem size_accessor_sentinel_then_count_witness :
    (initPipeline "d" "i" 3 "has_animal" MODE_FLAT_ALL (224, 224) 1 none true 10000
        = Except.ok gFlatEx) ∧
    (gFlatEx.get_size = (none, [ sizeMsg]) ∧
      (gFlatEx.get_pipeline_state rowsEx).get_size =
        (some (if MODE_FLAT_ALL = MODE_FLAT_ALL then (rowsEx.length : Int) * 3
               else (rowsEx.length : Int)), [])) :=
  ⟨rfl,
   size_accessor_sentinel_then_count "d" "i" 3 "has_animal" MODE_FLAT_ALL (224, 224) 1
     none true 10000 gFlatEx rfl rowsEx⟩

/-- C7: in flat mode each record expands into exactly `N` (image, label)
elements all carrying the record's label; a full non-repeating pass over
`R` rows emits exactly `R × N` elements; and flat mode is the only mode
whose pipeline is not a 1:1 map (the other three emit exactly `R`
elements). -/
theorem flat_all_expansion {L : Type} (g : PipelineGenerator) (md : String → String)
    (lbl : L) (r : Nat) (rows : List (Row L)) (rng : Nat → Nat) :
    ((g.parse_data_flat md lbl r).1.length = g.sequence_image_count.toNat ∧
      (∀ e ∈ (g.parse_data_flat md lbl r).1, e.2 = lbl)) ∧
    (g.pipeline_flat rows rng).length = rows.length * g.sequence_image_count.toNat ∧
    (g.pipeline_all rows rng).length = rows.length ∧
    (g.pipeline_single rows rng).length = rows.length ∧
    (g.pipeline_sequence rows rng).length = rows.length := by
  refine ⟨⟨?_, ?_⟩, ?_, ?_, ?_, ?_⟩
  · simp [PipelineGenerator.parse_data_flat, slotNumbers]
  · intro e he
    simp only [PipelineGenerator.parse_data_flat, List.map_map, List.mem_map,
      Function.comp] at he
    obtain ⟨k, hk, rfl⟩ := he
    rfl
  · have h := length_flatten_of_const rows.enum
      (fun p => (g.parse_data_flat p.2.metadata p.2.label (rng p.1)).1)
      g.sequence_image_count.toNat
      (fun p _ => by simp [PipelineGenerator.parse_data_flat, slotNumbers])
    simpa [PipelineGenerator.pipeline_flat] using h
  · simp [PipelineGenerator.pipeline_all]
  · simp [PipelineGenerator.pipeline_single]
  · simp [PipelineGenerator.pipeline_sequence]

/-- Witness for C7: the expansion counts at a concrete generator and a
concrete one-row manifest. -/
theorem flat_all_expansion_witness :
    ((gEx.parse_data_flat (fun _ => "a.jpg") (0 : Int) 0).1.length
        = gEx.sequence_image_count.toNat ∧
      (∀ e ∈ (gEx.parse_data_flat (fun _ => "a.jpg") (0 : Int) 0).1, e.2 = (0 : Int))) ∧
    (gEx.pipeline_flat rows1Ex (fun _ => 0)).length
        = rows1Ex.length * gEx.sequence_image_count.toNat ∧
    (gEx.pipeline_all rows1Ex (fun _ => 0)).length = rows1Ex.length ∧
    (gEx.pipeline_single rows1Ex (fun _ => 0)).length = rows1Ex.length ∧
    (gEx.pipeline_sequence rows1Ex (fun _ => 0)).length = rows1Ex.length :=
  flat_all_expansion gEx (fun _ => "a.jpg") (0 : Int) 0 rows1Ex (fun _ => 0)

/-- C8: in single mode the I/O trace of one record is exactly the one path
of slot `image_idx` (no read of any other slot), and a full pass over `R`
rows performs exactly `R` file reads. -/
theorem single_mode_single_read {L : Type} (g : PipelineGenerator)
    (md : String → String) (lbl : L) (r : Nat) (rows : List (Row L))
    (rng : Nat → Nat) :
    (g.parse_data_single md lbl r).2 =
      [ joinPath g.images_dir (md ("image" ++ toString g.image_idx))] ∧
    (g.pipeline_single_reads rows rng).length = rows.length := by
  constructor
  · rfl
  · have h := length_flatten_of_const rows.enum
      (fun p => (g.parse_data_single p.2.metadata p.2.label (rng p.1)).2) 1
      (fun p _ => rfl)
    simpa [PipelineGenerator.pipeline_single_reads] using h

/-- C9 counterexample: with no resize target and the training flag off, the
images emitted in mode ALL keep their native decoded size (here 100×100),
which differs from the configured image size 224×224 — refuting the claim
that every emitted array has the configured image size. -/
theorem all_mode_configured_size_counterexample :
    ((initPipeline "d" "i" 3 "has_animal" MODE_ALL (224, 224) 1 none false 10000).map
      (fun g => ((g.parse_data_all (fun _ => "a.jpg") (0 : Int) 0).1.1.map
        (fun e => Img.shape (fun _ => (100, 100)) e.2), g.image_size)))
      = Except.ok ([ (100, 100), (100, 100), (100, 100)], (224, 224)) ∧
    ((100, 100) : Int × Int) ≠ (224, 224) := by
  exact ⟨rfl, by decide⟩

/-- C9 amended: in mode ALL every emitted mapping has exactly `N` entries
keyed `image1 .. imageN`; under the decode and resize interface contracts
every emitted array has all pixel values in `[0, 1]`; and every emitted
array has the configured size whenever a resize target is configured (which
is what forces a uniform size) — not unconditionally. -/
theorem all_mode_element_contract {L : Type} (g : PipelineGenerator)
    (md : String → String) (lbl : L) (r : Nat) :
    ((g.parse_data_all md lbl r).1.1.map Prod.fst =
      (slotNumbers g.sequence_image_count).map (fun k => "image" ++ toString k)) ∧
    ((g.parse_data_all md lbl r).1.1.length = g.sequence_image_count.toNat) ∧
    (∀ I : Interp, I.DecodeInUnit → I.ResizePreservesUnit →
      ∀ e ∈ (g.parse_data_all md lbl r).1.1, ∀ p : Nat,
        0 ≤ e.2.eval I p ∧ e.2.eval I p ≤ 1) ∧
    (∀ sz : Int × Int, g.resize = some sz → g.image_size = sz →
      ∀ native : String → Int × Int, ∀ e ∈ (g.parse_data_all md lbl r).1.1,
        Img.shape native e.2 = sz) := by
  refine ⟨?_, ?_, ?_, ?_⟩
  · simp [PipelineGenerator.parse_data_all, List.map_map, Function.comp]
  · simp [PipelineGenerator.parse_data_all, slotNumbers]
  · intro I hd hr e he p
    simp only [PipelineGenerator.parse_data_all, List.map_map, List.mem_map,
      Function.comp] at he
    obtain ⟨k, hk, rfl⟩ := he
    exact eval_augment_decode_unit g _ _ I hd hr p
  · intro sz hres him native e he
    simp only [PipelineGenerator.parse_data_all, List.map_map, List.mem_map,
      Function.comp] at he
    obtain ⟨k, hk, rfl⟩ := he
    exact shape_augment_decode g _ _ native sz hres him

/-- The generator used by the C9 witness: resize target configured, so
`image_size` was overwritten with it by the constructor. -/
def gResEx : PipelineGenerator :=
  { dataset_file := "d", images_dir := "i", sequence_image_count := 3,
    label_name := "has_animal", mode := MODE_ALL, image_size := (64, 64),
    image_idx := 1, resize := some (64, 64), is_training := true,
    shuffle_buffer_size := 10000, size := none }

/-- Witness for the amended C9: the constant interpretation satisfies both
interface contracts, and with a configured resize target all emitted arrays
evaluate in `[0, 1]` and have size 64×64. -/
theorem all_mode_element_contract_witness :
    constInterp.DecodeInUnit ∧ constInterp.ResizePreservesUnit ∧
    gResEx.resize = some (64, 64) ∧ gResEx.image_size = (64, 64) ∧
    (∀ e ∈ (gResEx.parse_data_all (fun _ => "a.jpg") (0 : Int) 0).1.1, ∀ p : Nat,
      0 ≤ e.2.eval constInterp p ∧ e.2.eval constInterp p ≤ 1) ∧
    (∀ e ∈ (gResEx.parse_data_all (fun _ => "a.jpg") (0 : Int) 0).1.1,
      Img.shape (fun _ => (100, 100)) e.2 = (64, 64)) := by
  have hd : constInterp.DecodeInUnit := by
    intro b p
    constructor <;> norm_num [constInterp]
  have hr : constInterp.ResizePreservesUnit := by
    intro sz f h p
    exact h p
  refine ⟨hd, hr, rfl, rfl, ?_, ?_⟩
  · exact (all_mode_element_contract gResEx (fun _ => "a.jpg") (0 : Int) 0).2.2.1
      constInterp hd hr
  · exact (all_mode_element_contract gResEx (fun _ => "a.jpg") (0 : Int) 0).2.2.2
      (64, 64) rfl rfl (fun _ => (100, 100))

/-- C10: the `image_idx` bounds check only guards mode SINGLE — for the
other three valid modes, construction succeeds for every `image_idx`
(including values outside `[1, N]`), the value is stored in the generator,
and it is never used: all three parse functions are invariant under
changing it. -/
theorem image_idx_checked_only_for_single {L : Type} (df imd : String) (N : Int)
    (ln mode : String) (sz : Int × Int) (idx : Int) (rs : Option (Int × Int))
    (tr : Bool) (sbs : Int)
    (hm : mode ∈ [ MODE_ALL, MODE_FLAT_ALL, MODE_SEQUENCE]) :
    ∃ g, initPipeline df imd N ln mode sz idx rs tr sbs = Except.ok g ∧
      g.image_idx = idx ∧
      ∀ (j : Int) (md : String → String) (lbl : L) (r : Nat),
        ({g with image_idx := j} : PipelineGenerator).parse_data_all md lbl r
            = g.parse_data_all md lbl r ∧
        ({g with image_idx := j} : PipelineGenerator).parse_data_flat md lbl r
            = g.parse_data_flat md lbl r ∧
        ({g with image_idx := j} : PipelineGenerator).parse_data_sequence md lbl r
            = g.parse_data_sequence md lbl r := by
  have hm3 : mode = MODE_ALL ∨ mode = MODE_FLAT_ALL ∨ mode = MODE_SEQUENCE := by
    simpa using hm
  have hmem : mode ∈ modes := by
    rcases hm3 with h | h | h <;> simp [modes, h]
  have hns : ¬(mode = MODE_SINGLE ∧ (idx ≤ 0 ∨ idx > N)) := by
    rintro ⟨hs, -⟩
    rcases hm3 with h | h | h <;> rw [h] at hs <;> exact absurd hs (by decide)
  refine ⟨{ dataset_file := df, images_dir := imd, sequence_image_count := N,
            label_name := ln, mode := mode,
            image_size := (match rs with | some rr => rr | none => sz),
            image_idx := idx, resize := rs, is_training := tr,
            shuffle_buffer_size := sbs, size := none }, ?_, rfl, ?_⟩
  · simp [initPipeline, hmem, hns]
  · intro j md lbl r
    exact ⟨rfl, rfl, rfl⟩

/-- Witness for C10: sequence mode with the out-of-range `image_idx = -7`
constructs successfully, stores the value, and its parse functions ignore
it. -/
theorem image_idx_checked_only_for_single_witness :
    ∃ g, initPipeline "d" "i" 3 "has_animal" MODE_SEQUENCE (224, 224) (-7) none true
        10000 = Except.ok g ∧
      g.image_idx = -7 ∧
      ∀ (j : Int) (md : String → String) (lbl : Int) (r : Nat),
        ({g with image_idx := j} : PipelineGenerator).parse_data_all md lbl r
            = g.parse_data_all md lbl r ∧
        ({g with image_idx := j} : PipelineGenerator).parse_data_flat md lbl r
            = g.parse_data_flat md lbl r ∧
        ({g with image_idx := j} : PipelineGenerator).parse_data_sequence md lbl r
            = g.parse_data_sequence md lbl r :=
  image_idx_checked_only_for_single "d" "i" 3 "has_animal" MODE_SEQUENCE (224, 224)
    (-7) none true 10000 (by decide)

end CameraTrap
